import Mathlib

/-!
Formal model of the swap I/O path in `mm/page_io.c` of Canvas (Linux 5.5).

The C code is embedded shallowly: page flags become a `Page` record, the
side effects performed on a page (flag updates, unlocking, device
notification, bio submission/release, event counters) are recorded both in
the resulting `Page` and as an ordered `List Event` trace, and the external
collaborators (frontswap, `bdev_read_page`/`bdev_write_page`, the
filesystem `readpage`/`direct_IO` entry points, bio allocation, `bmap`)
are supplied as explicit boolean/integer parameters describing their
outcome.  Machine integers (`sector_t`) are modelled as `Nat` with an
explicit modulus where C unsigned wraparound matters.
-/

namespace Canvas

/-- PAGE_SHIFT on the x86-64 configuration Canvas targets. -/
def PAGE_SHIFT : Nat := 12

/-- PAGE_SIZE = 1 << PAGE_SHIFT. -/
def PAGE_SIZE : Nat := 2 ^ PAGE_SHIFT

/-- Modulus of the 64-bit `sector_t` type. -/
def SECTOR_MOD : Nat := 2 ^ 64

/-- Observable actions the swap I/O path performs, in program order. -/
inductive Event where
  | setError
  | setDirty
  | clearReclaim
  | setWriteback
  | endWriteback
  | setUptodate
  | clearUptodate
  | unlock
  | clearBiPrivate
  | bioPut
  | wake (task : Nat)
  | notify (offset : Nat)
  | submitBio
  | countSwpout (n : Nat)
  | countSwpin
deriving DecidableEq

/-- The page-state fields of `struct page` that `mm/page_io.c` reads or
writes: lock bit, dirty/uptodate/error/writeback/reclaim flags,
PG_swapcache, the swap slot offset stored in `page_private`, and the
compound-page count `hpage_nr_pages(page)`. -/
structure Page where
  locked : Bool
  dirty : Bool
  uptodate : Bool
  error : Bool
  writeback : Bool
  reclaim : Bool
  swapCache : Bool
  swapOffset : Nat
  nrPages : Nat
deriving DecidableEq

/-- The fields of `struct swap_info_struct` (and its device) consulted by
the I/O path: the `SWP_FS` and `SWP_BLKDEV` flags, whether
`disk->fops->swap_slot_free_notify` is non-null, and the value
`__swap_count(entry)` returns for the page's swap entry. -/
structure SwapInfoStruct where
  swpFs : Bool
  swpBlkdev : Bool
  slotFreeNotifyHook : Bool
  swapCount : Nat
deriving DecidableEq

/-- A page together with the trace of actions performed on it so far. -/
abbrev PS := Page × List Event

/-- Append an action to the trace without touching the page. -/
def emit (e : Event) (s : PS) : PS := (s.1, s.2 ++ [e])

/-- SetPageError. -/
def SetPageError (s : PS) : PS := ({ s.1 with error := true }, s.2 ++ [Event.setError])

/-- set_page_dirty / SetPageDirty: both end up setting the dirty flag
(for swap pages `set_page_dirty` dispatches to `swap_set_page_dirty`,
which marks the page dirty through the fs or the no-writeback variant). -/
def set_page_dirty (s : PS) : PS := ({ s.1 with dirty := true }, s.2 ++ [Event.setDirty])

/-- ClearPageReclaim. -/
def ClearPageReclaim (s : PS) : PS := ({ s.1 with reclaim := false }, s.2 ++ [Event.clearReclaim])

/-- set_page_writeback. -/
def set_page_writeback (s : PS) : PS := ({ s.1 with writeback := true }, s.2 ++ [Event.setWriteback])

/-- end_page_writeback. -/
def end_page_writeback (s : PS) : PS := ({ s.1 with writeback := false }, s.2 ++ [Event.endWriteback])

/-- SetPageUptodate. -/
def SetPageUptodate (s : PS) : PS := ({ s.1 with uptodate := true }, s.2 ++ [Event.setUptodate])

/-- ClearPageUptodate. -/
def ClearPageUptodate (s : PS) : PS := ({ s.1 with uptodate := false }, s.2 ++ [Event.clearUptodate])

/-- unlock_page. -/
def unlock_page (s : PS) : PS := ({ s.1 with locked := false }, s.2 ++ [Event.unlock])

/-- swap_slot_free_notify (page_io.c lines 82-128): bail out unless the
page is in the swap cache, the store is `SWP_BLKDEV`, the device provides
the `swap_slot_free_notify` hook and the slot's swap count is exactly 1;
when all hold, mark the page dirty and then notify the device with the
slot offset. -/
def swap_slot_free_notify (sis : SwapInfoStruct) (s : PS) : PS :=
  if !s.1.swapCache then s
  else if !sis.swpBlkdev then s
  else if sis.slotFreeNotifyHook && sis.swapCount == 1 then
    emit (Event.notify s.1.swapOffset) (set_page_dirty s)
  else s

/-- end_swap_bio_write (page_io.c lines 58-80): on a failed bio set the
error flag, redirty the page and clear PG_reclaim (the alert log is not
modelled); unconditionally end writeback and release the bio. -/
def end_swap_bio_write (failed : Bool) (s : PS) : PS :=
  let s := if failed then ClearPageReclaim (set_page_dirty (SetPageError s)) else s
  emit Event.bioPut (end_page_writeback s)

/-- Result of the read-completion handler: final page state, the action
trace, and the final value of `bio->bi_private`. -/
structure ReadEnd where
  page : Page
  trace : List Event
  biPrivate : Option Nat
deriving DecidableEq

/-- end_swap_bio_read (page_io.c lines 130-154): `waiter` is the value
loaded from `bio->bi_private` on entry.  On failure set the error flag and
clear uptodate (the alert log is not modelled); on success set uptodate
and run the slot-free optimization.  Unconditionally unlock the page,
clear `bio->bi_private`, release the bio, and finally wake the waiting
task when one was attached. -/
def end_swap_bio_read (sis : SwapInfoStruct) (failed : Bool) (waiter : Option Nat) (s : PS) : ReadEnd :=
  let s := if failed then ClearPageUptodate (SetPageError s)
           else swap_slot_free_notify sis (SetPageUptodate s)
  let s := unlock_page s
  let s := emit Event.clearBiPrivate s
  let s := emit Event.bioPut s
  let s := match waiter with
           | some t => emit (Event.wake t) s
           | none => s
  { page := s.1, trace := s.2, biPrivate := none }

/-- One swap extent: `count` consecutive logical slots starting at
`slotStart` mapped to consecutive physical blocks starting at
`blockStart`. -/
structure Extent where
  slotStart : Nat
  count : Nat
  blockStart : Nat
deriving DecidableEq

/-- Modelled from the spec: `add_swap_extent` lives in `mm/swapfile.c`,
which is not part of src/.  Per the spec (section 4.1) each
fully-contiguous page-aligned stride is "appended to (or merged with) the
current extent", and the activation loop accumulates the returned count of
newly added extents, so a merge contributes 0 and a fresh extent 1.
Allocation failure inside `add_swap_extent` is not modelled. -/
def add_swap_extent (extents : List Extent) (startPage nrPages startBlock : Nat) :
    List Extent × Nat :=
  match extents.getLast? with
  | some e =>
      if e.slotStart + e.count == startPage && e.blockStart + e.count == startBlock then
        (extents.dropLast ++ [{ e with count := e.count + nrPages }], 0)
      else
        (extents ++ [⟨startPage, nrPages, startBlock⟩], 1)
  | none => (extents ++ [⟨startPage, nrPages, startBlock⟩], 1)

/-- Outcome of probing the sub-blocks of one page-sized stride. -/
inductive RunCheck where
  | hole
  | discontig
  | contiguous
deriving DecidableEq

/-- The inner loop of `generic_swapfile_activate` (page_io.c lines
201-213): check that blocks `probe + bip, ...` for the remaining `k`
sub-block positions are mapped and physically contiguous with `first`.
Called with `bip = 1` and `k = blocks_per_page - 1`.  `bmap` returns 0 for
an unmapped block, exactly as the kernel's `bmap`. -/
def checkBlocks (bmap : Nat → Nat) (probe first : Nat) : Nat → Nat → RunCheck
  | _, 0 => RunCheck.contiguous
  | bip, k + 1 =>
      let b := bmap (probe + bip)
      if b == 0 then RunCheck.hole
      else if b != first + bip then RunCheck.discontig
      else checkBlocks bmap probe first (bip + 1) k

/-- The outputs of a successful activation: the returned extent count, the
reported `*span`, and the fields `sis->max`, `sis->pages`,
`sis->highest_bit` together with the extent list built. -/
structure ActivateOut where
  nrExtents : Nat
  span : Nat
  max : Nat
  pages : Nat
  highestBit : Nat
  extents : List Extent
deriving DecidableEq

/-- The scan loop of `generic_swapfile_activate` (page_io.c lines
182-241).  `shift = PAGE_SHIFT - blkbits`, so `blocks_per_page = 2 ^
shift`; `lastBlock = i_size_read(inode) >> blkbits`; `max` is the entry
value of `sis->max`.  A hole (`bmap` returning 0) aborts with `-EINVAL`;
the error also carries the extents already added to the store at that
point, i.e. the partial state `generic_swapfile_activate` itself leaves
behind.  `lowest`/`highest` track the span over every stride but the
header page, with `lowest` starting at `(sector_t)-1` and the final span
computed with 64-bit unsigned wraparound as `1 + highest - lowest`. -/
def activateLoop (bmap : Nat → Nat) (shift lastBlock max : Nat)
    (probe pageNo lowest highest : Nat) (extents : List Extent) (nr : Nat) :
    Except (Int × List Extent) ActivateOut :=
  if h : probe + 2 ^ shift ≤ lastBlock ∧ pageNo < max then
    let first := bmap probe
    if first == 0 then Except.error (-22, extents)
    else if first &&& (2 ^ shift - 1) != 0 then
      activateLoop bmap shift lastBlock max (probe + 1) pageNo lowest highest extents nr
    else
      match checkBlocks bmap probe first 1 (2 ^ shift - 1) with
      | RunCheck.hole => Except.error (-22, extents)
      | RunCheck.discontig =>
          activateLoop bmap shift lastBlock max (probe + 1) pageNo lowest highest extents nr
      | RunCheck.contiguous =>
          let fb := first >>> shift
          let lowest' := if pageNo != 0 && fb < lowest then fb else lowest
          let highest' := if pageNo != 0 && fb > highest then fb else highest
          let ea := add_swap_extent extents pageNo 1 fb
          activateLoop bmap shift lastBlock max (probe + 2 ^ shift) (pageNo + 1)
            lowest' highest' ea.1 (nr + ea.2)
  else
    let pageNo' := if pageNo == 0 then 1 else pageNo
    Except.ok { nrExtents := nr
              , span := (1 + highest + (SECTOR_MOD - lowest)) % SECTOR_MOD
              , max := pageNo'
              , pages := pageNo' - 1
              , highestBit := pageNo' - 1
              , extents := extents }
termination_by lastBlock - probe
decreasing_by
  all_goals
    have hp : 0 < 2 ^ shift := Nat.two_pow_pos shift
    omega

/-- generic_swapfile_activate (page_io.c lines 156-248), starting from
`probe_block = 0`, `page_no = 0`, `lowest_block = (sector_t)-1`,
`highest_block = 0`, and an empty extent list. -/
def generic_swapfile_activate (bmap : Nat → Nat) (shift lastBlock max : Nat) :
    Except (Int × List Extent) ActivateOut :=
  activateLoop bmap shift lastBlock max 0 0 (SECTOR_MOD - 1) 0 [] 0

/-- Modelled from the spec: the activation caller (`setup_swap_extents` /
`sys_swapon` in `mm/swapfile.c`, not in src/) destroys any partially
built extent list when `generic_swapfile_activate` fails, so per the spec
"no partial activation is retained": a failed activation surfaces only
the error code, never the extents added before the failure. -/
def activate (bmap : Nat → Nat) (shift lastBlock max : Nat) : Except Int ActivateOut :=
  match generic_swapfile_activate bmap shift lastBlock max with
  | Except.error e => Except.error e.1
  | Except.ok r => Except.ok r

/-- Mirrors the control flow of the activation scan and returns `true`
exactly when the scan probes an unmapped block (either as the first block
of a stride or as one of its sub-blocks) before reaching its normal
stopping condition. -/
def holeScanned (bmap : Nat → Nat) (shift lastBlock max : Nat) (probe pageNo : Nat) : Bool :=
  if probe + 2 ^ shift ≤ lastBlock ∧ pageNo < max then
    let first := bmap probe
    if first == 0 then true
    else if first &&& (2 ^ shift - 1) != 0 then
      holeScanned bmap shift lastBlock max (probe + 1) pageNo
    else
      match checkBlocks bmap probe first 1 (2 ^ shift - 1) with
      | RunCheck.hole => true
      | RunCheck.discontig => holeScanned bmap shift lastBlock max (probe + 1) pageNo
      | RunCheck.contiguous => holeScanned bmap shift lastBlock max (probe + 2 ^ shift) (pageNo + 1)
  else false
termination_by lastBlock - probe
decreasing_by
  all_goals
    have hp : 0 < 2 ^ shift := Nat.two_pow_pos shift
    omega

/-- Outcomes of the external collaborators consulted by the write path:
`try_to_free_swap`, `frontswap_store`, the filesystem `direct_IO` return
value (a byte count or negative errno), `bdev_write_page` (true when it
returned 0), and whether `bio_alloc` succeeded. -/
structure WriteParams where
  canFreeSwap : Bool
  frontswapStoreOk : Bool
  directWriteRet : Int
  bdevWriteOk : Bool
  bioAllocOk : Bool
deriving DecidableEq

/-- Result of a write-path invocation: the return value, the page state
and trace at the moment the entry point returns, whether a bio carrying
`end_swap_bio_write` was submitted, and whether the transfer (including
its unlock/writeback bookkeeping) was delegated to an external capability
(`bdev_write_page`). -/
structure WriteResult where
  ret : Int
  page : Page
  trace : List Event
  handlerInstalled : Bool
  delegated : Bool
deriving DecidableEq

/-- count_swpout_vm_event (page_io.c lines 284-291): counts PSWPOUT by
`hpage_nr_pages(page)` (the THP sub-event is not modelled separately). -/
def count_swpout_vm_event (s : PS) : PS := emit (Event.countSwpout s.1.nrPages) s

/-- __swap_writepage (page_io.c lines 293-364).  The `SWP_FS` branch sets
writeback, unlocks, issues the direct write, counts PSWPOUT and zeroes the
return only on a full-page transfer, otherwise redirties and clears
PG_reclaim (rate-limited log not modelled), and ends writeback.  The
block-device branch first tries `bdev_write_page`; on its success it
counts and returns, everything else being the device's responsibility.
Otherwise it allocates a bio: on failure redirty, unlock, `-ENOMEM`; on
success count, set writeback, unlock and submit with the completion
handler installed. -/
def __swap_writepage (sis : SwapInfoStruct) (prm : WriteParams) (s : PS) : WriteResult :=
  if sis.swpFs then
    let s := unlock_page (set_page_writeback s)
    if prm.directWriteRet == (PAGE_SIZE : Int) then
      let s := end_page_writeback (emit (Event.countSwpout 1) s)
      { ret := 0, page := s.1, trace := s.2, handlerInstalled := false, delegated := false }
    else
      let s := end_page_writeback (ClearPageReclaim (set_page_dirty s))
      { ret := prm.directWriteRet, page := s.1, trace := s.2
      , handlerInstalled := false, delegated := false }
  else if prm.bdevWriteOk then
    let s := count_swpout_vm_event s
    { ret := 0, page := s.1, trace := s.2, handlerInstalled := false, delegated := true }
  else if !prm.bioAllocOk then
    let s := unlock_page (set_page_dirty s)
    { ret := -12, page := s.1, trace := s.2, handlerInstalled := false, delegated := false }
  else
    let s := emit Event.submitBio (unlock_page (set_page_writeback (count_swpout_vm_event s)))
    { ret := 0, page := s.1, trace := s.2, handlerInstalled := true, delegated := false }

/-- swap_writepage (page_io.c lines 254-277): pages whose swap copy is
already valid are freed from swap and unlocked with no I/O; pages accepted
by frontswap get writeback set, unlocked and writeback immediately ended;
everything else goes to `__swap_writepage` (the Canvas latency profiling
is not modelled). -/
def swap_writepage (sis : SwapInfoStruct) (prm : WriteParams) (s : PS) : WriteResult :=
  if prm.canFreeSwap then
    let s := unlock_page s
    { ret := 0, page := s.1, trace := s.2, handlerInstalled := false, delegated := false }
  else if prm.frontswapStoreOk then
    let s := end_page_writeback (unlock_page (set_page_writeback s))
    { ret := 0, page := s.1, trace := s.2, handlerInstalled := false, delegated := false }
  else __swap_writepage sis prm s

/-- Outcomes of the external collaborators consulted by the read path:
`frontswap_load`/`frontswap_load_async` (0 = hit), the filesystem
`readpage` return value, `bdev_read_page` (true when it returned 0),
`trylock_page` after a fast synchronous read, and `bio_alloc`. -/
structure ReadParams where
  frontswapHit : Bool
  fsReadRet : Int
  bdevReadOk : Bool
  trylockOk : Bool
  bioAllocOk : Bool
deriving DecidableEq

/-- Result of a read-path invocation that returned: the return value, page
state and trace at return, whether a bio carrying `end_swap_bio_read` was
submitted, whether the transfer was delegated to an external capability
(filesystem `readpage` or `bdev_read_page`), the value of
`bio->bi_private` right after submission, and how many poll-loop
iterations ran before returning. -/
structure ReadResult where
  ret : Int
  page : Page
  trace : List Event
  handlerInstalled : Bool
  delegated : Bool
  biPrivate : Option Nat
  pollIters : Nat
deriving DecidableEq

/-- The blocking-poll loop (page_io.c lines 516-523) observed through the
sequence of `READ_ONCE(bio->bi_private)` tests: entry `true` means the
reference was still set at that test (so the iteration goes on to
`blk_poll`/`io_schedule`), `false` means it was observed cleared and the
loop breaks.  Returns the index of the breaking test, or `none` when the
reference is never observed cleared (the caller is still suspended). -/
def pollExit : List Bool → Option Nat
  | [] => none
  | b :: rest => if b then (pollExit rest).map (· + 1) else some 0

/-- Common body of swap_readpage (page_io.c lines 447-530) and
swap_readpage_async (lines 367-445); the two differ only in that the
latter fixes `synchronous := false` and queries the async frontswap
entry.  A frontswap hit returns 0 immediately — in Canvas the uptodate
bit and the unlock are deliberately deferred to the RDMA completion, so
the page is returned untouched.  The `SWP_FS` branch delegates to the
filesystem `readpage` and counts PSWPIN on success.  A successful
`bdev_read_page` is a synchronous transfer whose completion (uptodate +
unlock) the block layer performed; the path then retries the slot-free
optimization under `trylock_page` and counts PSWPIN.  Otherwise a bio is
built: allocation failure unlocks and returns `-ENOMEM`; on success, when
`synchronous` the current task is attached as `bi_private` before
submission and the poll loop runs until the completion handler is
observed to have cleared it (`none` models a call that has not yet
returned). -/
def swap_readpage_core (sis : SwapInfoStruct) (prm : ReadParams) (synchronous : Bool)
    (task : Nat) (obs : List Bool) (s : PS) : Option ReadResult :=
  if prm.frontswapHit then
    some { ret := 0, page := s.1, trace := s.2, handlerInstalled := false
         , delegated := false, biPrivate := none, pollIters := 0 }
  else if sis.swpFs then
    let s := if prm.fsReadRet == 0 then emit Event.countSwpin s else s
    some { ret := prm.fsReadRet, page := s.1, trace := s.2, handlerInstalled := false
         , delegated := true, biPrivate := none, pollIters := 0 }
  else if prm.bdevReadOk then
    let s : PS := ({ s.1 with uptodate := true, locked := false }, s.2)
    let s := if prm.trylockOk then
               unlock_page (swap_slot_free_notify sis ({ s.1 with locked := true }, s.2))
             else s
    let s := emit Event.countSwpin s
    some { ret := 0, page := s.1, trace := s.2, handlerInstalled := false
         , delegated := true, biPrivate := none, pollIters := 0 }
  else if !prm.bioAllocOk then
    let s := unlock_page s
    some { ret := -12, page := s.1, trace := s.2, handlerInstalled := false
         , delegated := false, biPrivate := none, pollIters := 0 }
  else
    let biPriv : Option Nat := if synchronous then some task else none
    let s := emit Event.submitBio (emit Event.countSwpin s)
    if synchronous then
      match pollExit obs with
      | none => none
      | some n =>
          some { ret := 0, page := s.1, trace := s.2, handlerInstalled := true
               , delegated := false, biPrivate := biPriv, pollIters := n + 1 }
    else
      some { ret := 0, page := s.1, trace := s.2, handlerInstalled := true
           , delegated := false, biPrivate := biPriv, pollIters := 0 }

/-- swap_readpage (page_io.c lines 447-530). -/
def swap_readpage (sis : SwapInfoStruct) (prm : ReadParams) (synchronous : Bool)
    (task : Nat) (obs : List Bool) (s : PS) : Option ReadResult :=
  swap_readpage_core sis prm synchronous task obs s

/-- swap_readpage_async (page_io.c lines 367-445): identical to the
synchronous entry except that its local `synchronous` flag is the
constant `false` (line 369). -/
def swap_readpage_async (sis : SwapInfoStruct) (prm : ReadParams)
    (task : Nat) (obs : List Bool) (s : PS) : Option ReadResult :=
  swap_readpage_core sis prm false task obs s

/-- swap_page_sector (page_io.c lines 279-282): the target sector is the
page's swap offset shifted by `PAGE_SHIFT - 9`. -/
def swap_page_sector (slot : Nat) : Nat := slot <<< (PAGE_SHIFT - 9)

/-- Walk an extent list for the block backing `slot`. -/
def extent_lookup (extents : List Extent) (slot : Nat) : Option Nat :=
  match extents with
  | [] => none
  | e :: rest =>
      if e.slotStart ≤ slot ∧ slot < e.slotStart + e.count then
        some (e.blockStart + (slot - e.slotStart))
      else extent_lookup rest slot

/-- Modelled from the spec: `map_swap_page` lives in `mm/swapfile.c`,
which is not part of src/; per the spec it resolves the page's slot
through the store's extent table. -/
def map_swap_page (extents : List Extent) (slot : Nat) : Option Nat :=
  extent_lookup extents slot

/-- The sector `get_swap_bio` (page_io.c lines 39-56) programs into the
bio: the block returned by `map_swap_page`, shifted by `PAGE_SHIFT - 9`. -/
def get_swap_bio_sector (extents : List Extent) (slot : Nat) : Option Nat :=
  (map_swap_page extents slot).map (fun b => b <<< (PAGE_SHIFT - 9))

/-- Modelled from the spec: activation of a raw block device (in
`mm/swapfile.c`, not in src/) installs the identity slot-to-block
mapping — one extent covering all `maxSlots` slots starting at block 0. -/
def blkdevExtents (maxSlots : Nat) : List Extent := [⟨0, maxSlots, 0⟩]

/-- Total number of pages the trace accounted as swapped out. -/
def swpoutTotal : List Event → Nat
  | [] => 0
  | Event.countSwpout n :: tr => n + swpoutTotal tr
  | _ :: tr => swpoutTotal tr

/-- A generic-path write whose bio later completes with an error: run
`swap_writepage`, then `end_swap_bio_write` with a failed status on the
resulting page and trace. -/
def write_then_fail (sis : SwapInfoStruct) (prm : WriteParams) (p : Page) : PS :=
  let w := swap_writepage sis prm (p, [])
  end_swap_bio_write true (w.page, w.trace)

/-! Helper lemmas shared by several theorems. -/

/-- The read-completion handler always leaves the page unlocked. -/
theorem end_swap_bio_read_locked (sis : SwapInfoStruct) (failed : Bool)
    (waiter : Option Nat) (s : PS) :
    (end_swap_bio_read sis failed waiter s).page.locked = false := by
  cases waiter <;>
    simp [end_swap_bio_read, unlock_page, emit]

/-- The read-completion handler always leaves `bio->bi_private` cleared. -/
theorem end_swap_bio_read_cleared (sis : SwapInfoStruct) (failed : Bool)
    (waiter : Option Nat) (s : PS) :
    (end_swap_bio_read sis failed waiter s).biPrivate = none := by
  cases waiter <;> rfl

/-- `pollExit obs = some n` means the n-th observation of
`bio->bi_private` saw it cleared and every earlier observation saw it
still set. -/
theorem pollExit_spec (obs : List Bool) (n : Nat) (h : pollExit obs = some n) :
    obs[n]? = some false ∧ ∀ m, m < n → obs[m]? = some true := by
  induction obs generalizing n with
  | nil => simp [pollExit] at h
  | cons b rest ih =>
      by_cases hb : b = true
      · subst hb
        simp only [pollExit, if_pos rfl] at h
        rcases Option.map_eq_some'.mp h with ⟨k, hk, hkn⟩
        subst hkn
        rcases ih k hk with ⟨h1, h2⟩
        refine ⟨by simpa using h1, ?_⟩
        intro m hm
        cases m with
        | zero => simp
        | succ m' => simpa using h2 m' (by omega)
      · have hb' : b = false := by simpa using hb
        subst hb'
        simp only [pollExit, Bool.false_eq_true, if_neg] at h
        simp at h
        subst h
        exact ⟨by simp, by intro m hm; omega⟩

/-- The slot-free optimization never touches the uptodate flag. -/
theorem swap_slot_free_notify_uptodate (sis : SwapInfoStruct) (s : PS) :
    (swap_slot_free_notify sis s).1.uptodate = s.1.uptodate := by
  simp only [swap_slot_free_notify, set_page_dirty, emit]
  split_ifs <;> rfl

/-- C9: swap_slot_free_notify changes no page state and issues no device
notification unless the page is in the swap cache, the store is
block-device backed, the device provides the slot-free-notify hook, and
the slot's swap count is exactly 1; when all hold, it marks the page
dirty before notifying the device of the slot offset. -/
theorem swap_slot_free_notify_spec (sis : SwapInfoStruct) (p : Page) :
    (¬ (p.swapCache = true ∧ sis.swpBlkdev = true ∧
        sis.slotFreeNotifyHook = true ∧ sis.swapCount = 1) →
      swap_slot_free_notify sis (p, []) = (p, [])) ∧
    (p.swapCache = true → sis.swpBlkdev = true →
      sis.slotFreeNotifyHook = true → sis.swapCount = 1 →
      swap_slot_free_notify sis (p, []) =
        ({ p with dirty := true }, [Event.setDirty, Event.notify p.swapOffset])) := by
  constructor
  · intro h
    simp only [swap_slot_free_notify]
    split_ifs with h1 h2 h3
    · rfl
    · rfl
    · exfalso
      apply h
      simp only [Bool.not_eq_true'] at h1 h2
      simp only [Bool.and_eq_true, beq_iff_eq] at h3
      exact ⟨by simpa using h1, by simpa using h2, h3.1, h3.2⟩
    · rfl
  · intro h1 h2 h3 h4
    simp [swap_slot_free_notify, h1, h2, h3, h4, set_page_dirty, emit]

/-- C9 witness: all four conditions hold, so the page is dirtied and the
device notified of slot 5. -/
theorem swap_slot_free_notify_spec_witness :
    swap_slot_free_notify ⟨false, true, true, 1⟩
        (⟨false, false, true, false, false, false, true, 5, 1⟩, []) =
      ({ (⟨false, false, true, false, false, false, true, 5, 1⟩ : Page) with dirty := true },
        [Event.setDirty, Event.notify 5]) :=
  (swap_slot_free_notify_spec ⟨false, true, true, 1⟩
      ⟨false, false, true, false, false, false, true, 5, 1⟩).2 rfl rfl rfl rfl

/-- C10: swap_readpage_async never suspends: it always returns, never
attaches a WaitingTask (`bi_private` stays unset), and the blocking poll
loop never executes an iteration. -/
theorem swap_readpage_async_never_suspends (sis : SwapInfoStruct) (prm : ReadParams)
    (task : Nat) (obs : List Bool) (p : Page) :
    ∃ r, swap_readpage_async sis prm task obs (p, []) = some r ∧
      r.biPrivate = none ∧ r.pollIters = 0 := by
  simp only [swap_readpage_async, swap_readpage_core, Bool.false_eq_true, if_false]
  split_ifs <;> exact ⟨_, rfl, rfl, rfl⟩

/-- C6: a generic-path write whose bio allocation fails returns `-ENOMEM`
(-12) with the page redirtied and unlocked and otherwise untouched — no
writeback flag set, no request submitted, no completion handler
installed, and nothing counted. -/
theorem write_alloc_fail_enomem (sis : SwapInfoStruct) (prm : WriteParams) (p : Page)
    (hfs : sis.swpFs = false) (hbd : prm.bdevWriteOk = false)
    (hba : prm.bioAllocOk = false) :
    __swap_writepage sis prm (p, []) =
      { ret := -12, page := { p with dirty := true, locked := false }
      , trace := [Event.setDirty, Event.unlock]
      , handlerInstalled := false, delegated := false } := by
  simp [__swap_writepage, hfs, hbd, hba, set_page_dirty, unlock_page]

/-- C6 witness: concrete bio-allocation failure on a block-device store. -/
theorem write_alloc_fail_enomem_witness :
    __swap_writepage ⟨false, true, true, 2⟩ ⟨false, false, 0, false, false⟩
        (⟨true, false, false, false, false, true, true, 5, 1⟩, []) =
      { ret := -12
      , page := { (⟨true, false, false, false, false, true, true, 5, 1⟩ : Page) with
                    dirty := true, locked := false }
      , trace := [Event.setDirty, Event.unlock]
      , handlerInstalled := false, delegated := false } :=
  write_alloc_fail_enomem ⟨false, true, true, 2⟩ ⟨false, false, 0, false, false⟩
    ⟨true, false, false, false, false, true, true, 5, 1⟩ rfl rfl rfl

/-- C7: on a raw-block-device store both the fast path
(`swap_page_sector`) and the generic bio path (`get_swap_bio` via
`map_swap_page` over the store's identity extent) address the sector
`slot <<< (PAGE_SHIFT - 9)`. -/
theorem blkdev_sector_formula (maxSlots slot : Nat) (h : slot < maxSlots) :
    get_swap_bio_sector (blkdevExtents maxSlots) slot = some (swap_page_sector slot) ∧
    swap_page_sector slot = slot <<< (PAGE_SHIFT - 9) := by
  refine ⟨?_, rfl⟩
  simp [get_swap_bio_sector, map_swap_page, blkdevExtents, extent_lookup, swap_page_sector, h]

/-- C7 witness: slot 5 of a 100-slot raw-block-device store maps to sector
5 <<< 3 = 40 on both paths. -/
theorem blkdev_sector_formula_witness :
    get_swap_bio_sector (blkdevExtents 100) 5 = some (swap_page_sector 5) ∧
    swap_page_sector 5 = 5 <<< (PAGE_SHIFT - 9) :=
  blkdev_sector_formula 100 5 (by decide)

/-- C4: on every read-request completion, a failed request leaves the
error flag set and uptodate cleared; a successful one leaves uptodate set
and runs the slot-free optimization (dirtying the page and notifying the
device when its conditions hold); in both cases the page ends unlocked,
`bio->bi_private` ends cleared, the bio is released, and when a
WaitingTask was attached the reference is cleared before the task is
woken (the wake is the last action, after the clear). -/
theorem end_swap_bio_read_spec (sis : SwapInfoStruct) (failed : Bool)
    (waiter : Option Nat) (p : Page) :
    (end_swap_bio_read sis failed waiter (p, [])).page.locked = false ∧
    (end_swap_bio_read sis failed waiter (p, [])).biPrivate = none ∧
    Event.bioPut ∈ (end_swap_bio_read sis failed waiter (p, [])).trace ∧
    (failed = true →
      (end_swap_bio_read sis failed waiter (p, [])).page.error = true ∧
      (end_swap_bio_read sis failed waiter (p, [])).page.uptodate = false) ∧
    (failed = false →
      (end_swap_bio_read sis failed waiter (p, [])).page.uptodate = true ∧
      (p.swapCache = true → sis.swpBlkdev = true → sis.slotFreeNotifyHook = true →
        sis.swapCount = 1 →
        (end_swap_bio_read sis failed waiter (p, [])).page.dirty = true ∧
        Event.notify p.swapOffset ∈ (end_swap_bio_read sis failed waiter (p, [])).trace)) ∧
    (∀ t, waiter = some t →
      ∃ mid, (end_swap_bio_read sis failed waiter (p, [])).trace = mid ++ [Event.wake t] ∧
        Event.clearBiPrivate ∈ mid) := by
  refine ⟨end_swap_bio_read_locked sis failed waiter (p, []),
          end_swap_bio_read_cleared sis failed waiter (p, []), ?_, ?_, ?_, ?_⟩
  · cases waiter <;> simp [end_swap_bio_read, emit, unlock_page]
  · intro hf
    subst hf
    cases waiter <;>
      simp [end_swap_bio_read, ClearPageUptodate, SetPageError, unlock_page, emit]
  · intro hf
    subst hf
    constructor
    · cases waiter <;>
        simp [end_swap_bio_read, unlock_page, emit, swap_slot_free_notify_uptodate,
              SetPageUptodate]
    · intro h1 h2 h3 h4
      cases waiter <;>
        simp [end_swap_bio_read, unlock_page, emit, swap_slot_free_notify,
              SetPageUptodate, set_page_dirty, h1, h2, h3, h4]
  · intro t ht
    subst ht
    simp only [end_swap_bio_read, emit]
    exact ⟨_, rfl, by simp⟩

/-- C4 witness: a successful completion with waiter task 7 on a page whose
slot-free conditions hold dirties the page, notifies slot 5, and wakes the
task only after clearing the reference. -/
theorem end_swap_bio_read_spec_witness :
    (end_swap_bio_read ⟨false, true, true, 1⟩ false (some 7)
        (⟨true, false, false, false, false, false, true, 5, 1⟩, [])).page.dirty = true ∧
    Event.notify 5 ∈ (end_swap_bio_read ⟨false, true, true, 1⟩ false (some 7)
        (⟨true, false, false, false, false, false, true, 5, 1⟩, [])).trace ∧
    (∃ mid, (end_swap_bio_read ⟨false, true, true, 1⟩ false (some 7)
        (⟨true, false, false, false, false, false, true, 5, 1⟩, [])).trace =
          mid ++ [Event.wake 7] ∧ Event.clearBiPrivate ∈ mid) := by
  have h := end_swap_bio_read_spec ⟨false, true, true, 1⟩ false (some 7)
    ⟨true, false, false, false, false, false, true, 5, 1⟩
  exact ⟨((h.2.2.2.2.1 rfl).2 rfl rfl rfl rfl).1,
         ((h.2.2.2.2.1 rfl).2 rfl rfl rfl rfl).2,
         h.2.2.2.2.2 7 rfl⟩

/-- C3 counterexample: a generic block-device write whose bio completes
with an error does end dirty, unlocked, with writeback and reclaim
cleared and the error flag set — but the written-pages counter WAS
incremented (at submission), refuting the claim that it is not
incremented for the failed page. -/
theorem write_fail_counts_swpout_cex :
    (write_then_fail ⟨false, true, true, 2⟩ ⟨false, false, 0, false, true⟩
        ⟨true, false, false, false, false, true, true, 5, 1⟩).1.error = true ∧
    (write_then_fail ⟨false, true, true, 2⟩ ⟨false, false, 0, false, true⟩
        ⟨true, false, false, false, false, true, true, 5, 1⟩).1.dirty = true ∧
    (write_then_fail ⟨false, true, true, 2⟩ ⟨false, false, 0, false, true⟩
        ⟨true, false, false, false, false, true, true, 5, 1⟩).1.locked = false ∧
    (write_then_fail ⟨false, true, true, 2⟩ ⟨false, false, 0, false, true⟩
        ⟨true, false, false, false, false, true, true, 5, 1⟩).1.writeback = false ∧
    (write_then_fail ⟨false, true, true, 2⟩ ⟨false, false, 0, false, true⟩
        ⟨true, false, false, false, false, true, true, 5, 1⟩).1.reclaim = false ∧
    ¬ swpoutTotal (write_then_fail ⟨false, true, true, 2⟩ ⟨false, false, 0, false, true⟩
        ⟨true, false, false, false, false, true, true, 5, 1⟩).2 = 0 := by
  decide

/-- C3 amended: a failed generic block-device write leaves the page with
the error flag set, dirty, unlocked, with writeback and the
reclaim-requested flag cleared; the written-pages counter is incremented
by the page count at submission time, so it is incremented even though
the write failed. -/
theorem write_fail_redirties_and_counts (sis : SwapInfoStruct) (prm : WriteParams)
    (p : Page) (hcf : prm.canFreeSwap = false) (hfw : prm.frontswapStoreOk = false)
    (hfs : sis.swpFs = false) (hbd : prm.bdevWriteOk = false)
    (hba : prm.bioAllocOk = true) :
    (write_then_fail sis prm p).1.error = true ∧
    (write_then_fail sis prm p).1.dirty = true ∧
    (write_then_fail sis prm p).1.locked = false ∧
    (write_then_fail sis prm p).1.writeback = false ∧
    (write_then_fail sis prm p).1.reclaim = false ∧
    swpoutTotal (write_then_fail sis prm p).2 = p.nrPages := by
  simp [write_then_fail, swap_writepage, __swap_writepage, hcf, hfw, hfs, hbd, hba,
        end_swap_bio_write, count_swpout_vm_event, set_page_writeback, unlock_page, emit,
        SetPageError, set_page_dirty, ClearPageReclaim, end_page_writeback, swpoutTotal]

/-- C3 amended witness: concrete failed write of a 1-page unit at slot 5. -/
theorem write_fail_redirties_and_counts_witness :
    (write_then_fail ⟨false, true, true, 2⟩ ⟨false, false, 0, false, true⟩
        ⟨true, false, false, false, false, true, true, 5, 1⟩).1.error = true ∧
    (write_then_fail ⟨false, true, true, 2⟩ ⟨false, false, 0, false, true⟩
        ⟨true, false, false, false, false, true, true, 5, 1⟩).1.dirty = true ∧
    (write_then_fail ⟨false, true, true, 2⟩ ⟨false, false, 0, false, true⟩
        ⟨true, false, false, false, false, true, true, 5, 1⟩).1.locked = false ∧
    (write_then_fail ⟨false, true, true, 2⟩ ⟨false, false, 0, false, true⟩
        ⟨true, false, false, false, false, true, true, 5, 1⟩).1.writeback = false ∧
    (write_then_fail ⟨false, true, true, 2⟩ ⟨false, false, 0, false, true⟩
        ⟨true, false, false, false, false, true, true, 5, 1⟩).1.reclaim = false ∧
    swpoutTotal (write_then_fail ⟨false, true, true, 2⟩ ⟨false, false, 0, false, true⟩
        ⟨true, false, false, false, false, true, true, 5, 1⟩).2 =
      (⟨true, false, false, false, false, true, true, 5, 1⟩ : Page).nrPages :=
  write_fail_redirties_and_counts ⟨false, true, true, 2⟩ ⟨false, false, 0, false, true⟩
    ⟨true, false, false, false, false, true, true, 5, 1⟩ rfl rfl rfl rfl rfl

/-- C8 counterexample: on a front-end-cache (frontswap) read hit, Canvas's
swap_readpage returns success with the page still locked, having neither
unlocked it, nor installed a completion handler, nor delegated the
transfer to the filesystem/fast block-device capability: the unlock is
deferred to the front-end cache's own RDMA completion, outside this
path. -/
theorem read_frontswap_hit_leaves_locked_cex :
    swap_readpage ⟨false, true, true, 1⟩ ⟨true, 0, false, false, true⟩ true 7 []
        (⟨true, false, false, false, false, false, true, 5, 1⟩, []) =
      some { ret := 0
           , page := ⟨true, false, false, false, false, false, true, 5, 1⟩
           , trace := [], handlerInstalled := false, delegated := false
           , biPrivate := none, pollIters := 0 } ∧
    (⟨true, false, false, false, false, false, true, 5, 1⟩ : Page).locked = true := by
  decide

/-- C8 amended: swap_writepage unlocks the page on every exit either
itself or by delegating to the fast block-device write capability; for
swap_readpage and swap_readpage_async the same holds on every exit other
than a front-end-cache hit — the page is unlocked before return, or the
transfer is delegated to an external capability (filesystem readpage /
fast block-device read), or the installed read-completion handler
unlocks it (which it always does). -/
theorem unlock_on_every_exit_amended (sis : SwapInfoStruct) (wprm : WriteParams)
    (rprm : ReadParams) (synchronous : Bool) (task : Nat) (obs : List Bool) (p : Page)
    (hfh : rprm.frontswapHit = false) :
    ((swap_writepage sis wprm (p, [])).page.locked = false ∨
      (swap_writepage sis wprm (p, [])).delegated = true) ∧
    (∀ r, swap_readpage sis rprm synchronous task obs (p, []) = some r →
      r.page.locked = false ∨ r.delegated = true ∨ r.handlerInstalled = true) ∧
    (∀ r, swap_readpage_async sis rprm task obs (p, []) = some r →
      r.page.locked = false ∨ r.delegated = true ∨ r.handlerInstalled = true) ∧
    (∀ failed waiter s, (end_swap_bio_read sis failed waiter s).page.locked = false) := by
  refine ⟨?_, ?_, ?_, fun failed waiter s => end_swap_bio_read_locked sis failed waiter s⟩
  · simp only [swap_writepage, __swap_writepage]
    split_ifs <;>
      simp [unlock_page, emit, set_page_writeback, end_page_writeback, set_page_dirty,
            ClearPageReclaim, count_swpout_vm_event]
  · intro r hr
    simp only [swap_readpage, swap_readpage_core, hfh, Bool.false_eq_true, if_false] at hr
    split_ifs at hr
    all_goals
      try (simp only [Option.some.injEq] at hr; subst hr; simp [unlock_page, emit])
    all_goals
      cases hpe : pollExit obs with
      | none => rw [hpe] at hr; simp at hr
      | some n =>
          rw [hpe] at hr
          simp only [Option.some.injEq] at hr
          subst hr
          simp
  · intro r hr
    simp only [swap_readpage_async, swap_readpage_core, hfh, Bool.false_eq_true,
               if_false] at hr
    split_ifs at hr
    all_goals
      simp only [Option.some.injEq] at hr
    all_goals
      subst hr
    all_goals
      simp [unlock_page, emit]

/-- C8 amended witness: a synchronous generic-path read (frontswap miss)
submits a bio with the completion handler installed. -/
theorem unlock_on_every_exit_amended_witness :
    ((swap_writepage ⟨false, true, true, 1⟩ ⟨false, false, 0, false, true⟩
        (⟨true, false, false, false, false, false, true, 5, 1⟩, [])).page.locked = false ∨
      (swap_writepage ⟨false, true, true, 1⟩ ⟨false, false, 0, false, true⟩
        (⟨true, false, false, false, false, false, true, 5, 1⟩, [])).delegated = true) ∧
    (∀ r, swap_readpage ⟨false, true, true, 1⟩ ⟨false, 0, false, false, true⟩ true 7
        [true, false] (⟨true, false, false, false, false, false, true, 5, 1⟩, []) = some r →
      r.page.locked = false ∨ r.delegated = true ∨ r.handlerInstalled = true) ∧
    (∀ r, swap_readpage_async ⟨false, true, true, 1⟩ ⟨false, 0, false, false, true⟩ 7
        [true, false] (⟨true, false, false, false, false, false, true, 5, 1⟩, []) = some r →
      r.page.locked = false ∨ r.delegated = true ∨ r.handlerInstalled = true) ∧
    (∀ failed waiter s,
      (end_swap_bio_read ⟨false, true, true, 1⟩ failed waiter s).page.locked = false) :=
  unlock_on_every_exit_amended ⟨false, true, true, 1⟩ ⟨false, false, 0, false, true⟩
    ⟨false, 0, false, false, true⟩ true 7 [true, false]
    ⟨true, false, false, false, false, false, true, 5, 1⟩ rfl

/-- C5: a blocking-poll generic-path read returns exactly when some
iteration of the poll loop observes `bio->bi_private` cleared: the call
returns iff such an observation exists, the submitted bio carries the
WaitingTask reference, every iteration before the breaking one observed
the reference still set (and so went on to poll the queue or suspend),
and the read-completion handler is what clears the reference — its run
always ends with `bi_private = none`, the page's error/uptodate state
finalized. -/
theorem sync_read_returns_after_clear (sis : SwapInfoStruct) (prm : ReadParams)
    (task : Nat) (obs : List Bool) (p : Page)
    (hfh : prm.frontswapHit = false) (hfs : sis.swpFs = false)
    (hbd : prm.bdevReadOk = false) (hba : prm.bioAllocOk = true) :
    ((swap_readpage sis prm true task obs (p, [])).isSome = true ↔
      (pollExit obs).isSome = true) ∧
    (∀ r, swap_readpage sis prm true task obs (p, []) = some r →
      r.biPrivate = some task) ∧
    (∀ n, pollExit obs = some n →
      obs[n]? = some false ∧ ∀ m, m < n → obs[m]? = some true) ∧
    (∀ failed waiter s, (end_swap_bio_read sis failed waiter s).biPrivate = none) := by
  refine ⟨?_, ?_, fun n h => pollExit_spec obs n h,
          fun failed waiter s => end_swap_bio_read_cleared sis failed waiter s⟩
  · cases hpe : pollExit obs <;>
      simp [swap_readpage, swap_readpage_core, hfh, hfs, hbd, hba, hpe]
  · intro r hr
    simp only [swap_readpage, swap_readpage_core, hfh, hfs, hbd, hba, Bool.false_eq_true,
               if_false, Bool.not_true, eq_self_iff_true, if_true] at hr
    cases hpe : pollExit obs with
    | none => rw [hpe] at hr; simp at hr
    | some n =>
        rw [hpe] at hr
        simp only [Option.some.injEq] at hr
        subst hr
        rfl

/-- C5 witness: with observations [still set, cleared], the call returns
after the second check and carried task 7 as the WaitingTask. -/
theorem sync_read_returns_after_clear_witness :
    ((swap_readpage ⟨false, true, true, 1⟩ ⟨false, 0, false, false, true⟩ true 7
        [true, false] (⟨true, false, false, false, false, false, true, 5, 1⟩, [])).isSome =
          true ↔ (pollExit [true, false]).isSome = true) ∧
    (∀ r, swap_readpage ⟨false, true, true, 1⟩ ⟨false, 0, false, false, true⟩ true 7
        [true, false] (⟨true, false, false, false, false, false, true, 5, 1⟩, []) = some r →
      r.biPrivate = some 7) ∧
    (∀ n, pollExit [true, false] = some n →
      [true, false][n]? = some false ∧ ∀ m, m < n → [true, false][m]? = some true) ∧
    (∀ failed waiter s,
      (end_swap_bio_read ⟨false, true, true, 1⟩ failed waiter s).biPrivate = none) :=
  sync_read_returns_after_clear ⟨false, true, true, 1⟩ ⟨false, 0, false, false, true⟩ 7
    [true, false] ⟨true, false, false, false, false, false, true, 5, 1⟩ rfl rfl rfl rfl

/-- If the activation scan probes a hole, the loop aborts with `-EINVAL`
regardless of the span/extent accumulator state it was started with. -/
theorem activateLoop_hole (bmap : Nat → Nat) (shift lastBlock max : Nat)
    (probe pageNo : Nat) :
    holeScanned bmap shift lastBlock max probe pageNo = true →
    ∀ lowest highest extents nr, ∃ ext',
      activateLoop bmap shift lastBlock max probe pageNo lowest highest extents nr =
        Except.error (-22, ext') := by
  induction probe, pageNo using holeScanned.induct bmap shift lastBlock max with
  | case1 probe pageNo hcond first hfirst =>
      intro _ lowest highest extents nr
      have hf : (bmap probe == 0) = true := hfirst
      rw [activateLoop.eq_def, dif_pos hcond]
      simp only [hf, if_true]
      exact ⟨extents, rfl⟩
  | case2 probe pageNo hcond first hfirst hali ih =>
      intro h lowest highest extents nr
      have hf : (bmap probe == 0) = false := by
        have hf0 : ¬ ((bmap probe == 0) = true) := hfirst
        simpa using hf0
      have ha : (bmap probe &&& 2 ^ shift - 1 != 0) = true := hali
      rw [holeScanned.eq_def, if_pos hcond] at h
      simp only [hf, Bool.false_eq_true, if_false, ha, if_true] at h
      rw [activateLoop.eq_def, dif_pos hcond]
      simp only [hf, Bool.false_eq_true, if_false, ha, if_true]
      exact ih h lowest highest extents nr
  | case3 probe pageNo hcond first hfirst hali hcheck =>
      intro _ lowest highest extents nr
      have hf : (bmap probe == 0) = false := by
        have hf0 : ¬ ((bmap probe == 0) = true) := hfirst
        simpa using hf0
      have ha : (bmap probe &&& 2 ^ shift - 1 != 0) = false := by
        have ha0 : ¬ ((bmap probe &&& 2 ^ shift - 1 != 0) = true) := hali
        simpa using ha0
      have hc : checkBlocks bmap probe (bmap probe) 1 (2 ^ shift - 1) = RunCheck.hole :=
        hcheck
      rw [activateLoop.eq_def, dif_pos hcond]
      simp only [hf, Bool.false_eq_true, if_false, ha, hc]
      exact ⟨extents, rfl⟩
  | case4 probe pageNo hcond first hfirst hali hcheck ih =>
      intro h lowest highest extents nr
      have hf : (bmap probe == 0) = false := by
        have hf0 : ¬ ((bmap probe == 0) = true) := hfirst
        simpa using hf0
      have ha : (bmap probe &&& 2 ^ shift - 1 != 0) = false := by
        have ha0 : ¬ ((bmap probe &&& 2 ^ shift - 1 != 0) = true) := hali
        simpa using ha0
      have hc : checkBlocks bmap probe (bmap probe) 1 (2 ^ shift - 1) = RunCheck.discontig :=
        hcheck
      rw [holeScanned.eq_def, if_pos hcond] at h
      simp only [hf, Bool.false_eq_true, if_false, ha, hc] at h
      rw [activateLoop.eq_def, dif_pos hcond]
      simp only [hf, Bool.false_eq_true, if_false, ha, hc]
      exact ih h lowest highest extents nr
  | case5 probe pageNo hcond first hfirst hali hcheck ih =>
      intro h lowest highest extents nr
      have hf : (bmap probe == 0) = false := by
        have hf0 : ¬ ((bmap probe == 0) = true) := hfirst
        simpa using hf0
      have ha : (bmap probe &&& 2 ^ shift - 1 != 0) = false := by
        have ha0 : ¬ ((bmap probe &&& 2 ^ shift - 1 != 0) = true) := hali
        simpa using ha0
      have hc : checkBlocks bmap probe (bmap probe) 1 (2 ^ shift - 1) = RunCheck.contiguous :=
        hcheck
      rw [holeScanned.eq_def, if_pos hcond] at h
      simp only [hf, Bool.false_eq_true, if_false, ha, hc] at h
      rw [activateLoop.eq_def, dif_pos hcond]
      simp only [hf, Bool.false_eq_true, if_false, ha, hc]
      exact ih h _ _ _ _
  | case6 probe pageNo hcond =>
      intro h
      rw [holeScanned.eq_def, if_neg hcond] at h
      exact absurd h (by simp)

/-- C2: whenever the activation scan encounters an unmapped (hole) block,
activation fails with `-EINVAL` (-22), and no partial extent state is
visible: the failed activation surfaces only the error, the extents added
before the hole are not retained. -/
theorem activate_hole_fails_einval (bmap : Nat → Nat) (shift lastBlock max : Nat)
    (h : holeScanned bmap shift lastBlock max 0 0 = true) :
    activate bmap shift lastBlock max = Except.error (-22) := by
  obtain ⟨ext', he⟩ :=
    activateLoop_hole bmap shift lastBlock max 0 0 h (SECTOR_MOD - 1) 0 [] 0
  simp [activate, generic_swapfile_activate, he]

/-- C2 witness: the spec's scenario — the block for slot 2 is unmapped, so
the scan probes a hole and activation fails with `-EINVAL` and no visible
extents. -/
theorem activate_hole_fails_einval_witness :
    holeScanned (fun i => if i == 2 then 0 else 10 + i) 0 4 100 0 0 = true ∧
    activate (fun i => if i == 2 then 0 else 10 + i) 0 4 100 = Except.error (-22) :=
  ⟨by simp [holeScanned, checkBlocks],
   activate_hole_fails_einval (fun i => if i == 2 then 0 else 10 + i) 0 4 100
     (by simp [holeScanned, checkBlocks])⟩

/-- C1: activating a backing file that maps slots 0-3 to four physically
contiguous page-aligned blocks starting at block `b0` produces exactly
one extent (covering slots 0-3), reports a block span of 3 — slot 0's
block is excluded from the lowest/highest computation, so the span covers
only slots 1-3 — and sets the store's slot count (`sis->max`) to 4. -/
theorem activate_four_contiguous_slots (b0 maxSlots : Nat)
    (hb : 0 < b0) (hb2 : b0 + 3 < SECTOR_MOD - 1) (hm : 4 ≤ maxSlots) :
    generic_swapfile_activate (fun i => if i < 4 then b0 + i else 0) 0 4 maxSlots =
      Except.ok { nrExtents := 1, span := 3, max := 4, pages := 3, highestBit := 3
                , extents := [⟨0, 4, b0⟩] } := by
  have hm0 : 0 < maxSlots := by omega
  have hm1 : 1 < maxSlots := by omega
  have hm2 : 2 < maxSlots := by omega
  have hm3 : 3 < maxSlots := by omega
  have hb0 : ¬ b0 = 0 := by omega
  have hl1 : b0 + 1 < SECTOR_MOD - 1 := by omega
  have hg1 : b0 + 1 > 0 := by omega
  have hnl2 : ¬ (b0 + 2 < b0 + 1) := by omega
  have hg2 : b0 + 2 > b0 + 1 := by omega
  have hnl3 : ¬ (b0 + 3 < b0 + 1) := by omega
  have hg3 : b0 + 3 > b0 + 2 := by omega
  have hM : SECTOR_MOD = 18446744073709551616 := by norm_num [SECTOR_MOD]
  simp [generic_swapfile_activate, activateLoop, checkBlocks, add_swap_extent,
        hm0, hm1, hm2, hm3, hb0, hl1, hg1, hnl2, hg2, hnl3, hg3]
  rw [hM]
  omega

/-- C1 witness: four contiguous blocks starting at block 10, store limit
100: one extent, span 3, slot count 4. -/
theorem activate_four_contiguous_slots_witness :
    generic_swapfile_activate (fun i => if i < 4 then 10 + i else 0) 0 4 100 =
      Except.ok { nrExtents := 1, span := 3, max := 4, pages := 3, highestBit := 3
                , extents := [⟨0, 4, 10⟩] } :=
  activate_four_contiguous_slots 10 100 (by decide) (by decide) (by decide)

end Canvas
